import Mathlib

/-!
Shallow embedding of the Book_Writer_Agent desktop application
(`src/llm_client.py`, `src/main_window.py`, `src/tabs/*.py`) and proofs of
the specification's testable properties.

Python strings are modelled as Lean `String`; `str.strip()` as `pyStrip`
(dropping Python whitespace characters from both ends); `str.upper()` as
`pyUpper` (ASCII uppercasing, sufficient for the key material involved);
an `Optional[str]` as `Option String`; a raised exception as the `error`
branch of `Except PyException`; and the filesystem as explicit `Option
String` fields (`none` = the file does not exist).
-/

/-- A Python exception, identified by its message (`str(exc)`). -/
structure PyException where
  message : String
deriving DecidableEq, Repr

/-- `str(exc)` for a modelled Python exception. -/
def pyStr (e : PyException) : String :=
  e.message

/-- The characters removed by Python `str.strip()` (ASCII whitespace). -/
def isPySpace (c : Char) : Bool :=
  c = ' ' || c = '\t' || c = '\n' || c = '\r' || c = '\x0b' || c = '\x0c'

/-- Python `str.strip()`: drop whitespace from both ends. -/
def pyStrip (s : String) : String :=
  String.mk (((s.toList.dropWhile isPySpace).reverse.dropWhile isPySpace).reverse)

/-- Python `str.upper()` (ASCII). -/
def pyUpper (s : String) : String :=
  String.mk (s.toList.map Char.toUpper)

/-- Python truthiness of an `Optional[str]`: `None` and `""` are falsy. -/
def pyBool : Option String → Bool
  | none => false
  | some s => s ≠ ""

/-- The result record produced by every generation call
(`llm_client.LLMResult`). -/
structure LLMResult where
  text : String
  is_mock : Bool
deriving DecidableEq, Repr

deriving instance DecidableEq for Except

/-- The credential file as seen by `load_api_key`: the result of
`API_KEY_PATH.exists()` and the outcome of `API_KEY_PATH.read_text(...)`,
which either yields the file content or raises an I/O error. -/
structure CredFile where
  on_disk : Bool
  readResult : Except PyException String
deriving DecidableEq, Repr

/-- The placeholder tokens of `load_api_key`. -/
def placeholderTokens : List String :=
  ["YOUR_KEY_HERE", "MOCK", "MOCK_API_KEY"]

/-- `llm_client.load_api_key`: `None` if the file is missing, empty after
strip, or a placeholder; otherwise the stripped content. The body performs
`read_text` with no exception handler, so a raised I/O error propagates
(`error` branch). -/
def load_api_key (f : CredFile) : Except PyException (Option String) :=
  if ¬ f.on_disk then Except.ok none
  else
    match f.readResult with
    | Except.error e => Except.error e
    | Except.ok content =>
      let value := pyStrip content
      if value = "" then Except.ok none
      else if pyUpper value ∈ placeholderTokens then Except.ok none
      else Except.ok (some value)

/-- The first line of a string. Modelled from the spec: §6 says the
credential is the "first line (trimmed)" of the credential file; this
definition captures the spec's notion of first line for comparison with
`load_api_key`. -/
def firstLine (s : String) : String :=
  String.mk (s.toList.takeWhile (fun c => c ≠ '\n'))

/-- The external generation backend (`google.generativeai`), as the client
observes it: invoking a model's `generate_content` on the full prompt either
raises or returns a response whose `.text` may be `None`; constructing the
search-augmented model may itself raise. -/
structure Backend where
  plain : String → Except PyException (Option String)
  searchCtor : Except PyException Unit
  search : String → Except PyException (Option String)

/-- `llm_client.LLMClient` state: the credential, whether the SDK module
was imported (`genai is not None`), and the opaque backend. -/
structure LLMClient where
  api_key : Option String
  genaiLoaded : Bool
  backend : Backend

/-- `self.is_available = bool(api_key) and genai is not None`. -/
def LLMClient.is_available (c : LLMClient) : Bool :=
  pyBool c.api_key && c.genaiLoaded

/-- `LLMClient._mock_result()`: the fixed mock result. -/
def mock_result : LLMResult :=
  { text := "[Mock response]\n\nThe Gemini API key is missing or the SDK is unavailable. Populate gemini_api_key.txt to enable live generation."
    is_mock := true }

/-- `full_prompt = f"{system}\n\n{prompt}" if system else prompt`
(Python truthiness: `None` and `""` both select the bare prompt). -/
def fullPrompt (system : Option String) (prompt : String) : String :=
  match system with
  | some s => if s ≠ "" then s ++ "\n\n" ++ prompt else prompt
  | none => prompt

/-- `LLMClient.generate`: mock when unavailable; otherwise invoke the
backend on the full prompt, wrapping `response.text or ""`; a backend
exception propagates (no handler in this method). -/
def LLMClient.generate (c : LLMClient) (prompt : String) (system : Option String) : Except PyException LLMResult :=
  if ¬ c.is_available then Except.ok mock_result
  else
    match c.backend.plain (fullPrompt system prompt) with
    | Except.error e => Except.error e
    | Except.ok t => Except.ok { text := t.getD "", is_mock := false }

/-- `LLMClient.generate_with_search`: mock when unavailable; otherwise
construct the search-augmented model and invoke it, and on any exception
from that whole block fall back to `generate` with the same arguments. -/
def LLMClient.generate_with_search (c : LLMClient) (prompt : String) (system : Option String) : Except PyException LLMResult :=
  if ¬ c.is_available then Except.ok mock_result
  else
    match c.backend.searchCtor with
    | Except.error _ => c.generate prompt system
    | Except.ok _ =>
      match c.backend.search (fullPrompt system prompt) with
      | Except.error _ => c.generate prompt system
      | Except.ok t => Except.ok { text := t.getD "", is_mock := false }

/-- The search-augmented path of `generate_with_search` raises: the client
is available (so the path is reached) and either constructing the search
model or invoking it on the full prompt yields an exception. -/
def searchPathRaises (c : LLMClient) (prompt : String) (system : Option String) : Bool :=
  c.is_available &&
    (match c.backend.searchCtor with
     | Except.error _ => true
     | Except.ok _ =>
       match c.backend.search (fullPrompt system prompt) with
       | Except.error _ => true
       | Except.ok _ => false)

/-- A signal emission of `LLMWorkerSignals`: `finished(result)` or
`failed(message)`. -/
inductive WorkerEvent where
  | finished (r : LLMResult)
  | failed (msg : String)
deriving DecidableEq, Repr

/-- `LLMWorker.run`: execute the unit of work; on an exception emit
`failed(str(exc))` and return, otherwise emit `finished(result)`. The
returned list is the sequence of emissions. -/
def LLMWorker.run (task : Except PyException LLMResult) : List WorkerEvent :=
  match task with
  | Except.error exc => [WorkerEvent.failed (pyStr exc)]
  | Except.ok result => [WorkerEvent.finished result]

/-- Deliver each emitted signal to its connected slot, threading the
receiving tab's state (mirrors `signals.finished.connect` /
`signals.failed.connect` followed by `run`). -/
def dispatchEvents {α : Type} (events : List WorkerEvent) (st0 : α)
    (onOk : LLMResult → α → α) (onErr : String → α → α) : α :=
  events.foldl
    (fun s e =>
      match e with
      | WorkerEvent.finished r => onOk r s
      | WorkerEvent.failed m => onErr m s)
    st0

/-- A modal dialog raised via `QMessageBox` (kind, title, message). -/
inductive Dialog where
  | information (title msg : String)
  | warning (title msg : String)
  | critical (title msg : String)
deriving DecidableEq, Repr

/-- Outcome of the synchronous part of a tab's submit handler: the dialogs
shown, whether a worker was handed to the thread pool, and whether the tab
entered the busy state (triggering controls disabled). -/
structure SubmitOutcome where
  dialogs : List Dialog
  submitted : Bool
  busy : Bool
deriving DecidableEq, Repr

/-- `"\n".join(f"{role}: {text}" for role, text in conversation)`. -/
def historyText (conversation : List (String × String)) : String :=
  String.intercalate "\n" (conversation.map (fun rt => rt.1 ++ ": " ++ rt.2))

/-- `IdeaWorkshopTab.send_message`, synchronous part: strip the input; if
empty, return silently (no dialog, no worker); otherwise enter busy state
and start a worker. -/
def IdeaWorkshopTab.send_message_submit (input : String) : SubmitOutcome :=
  let content := pyStrip input
  if content = "" then { dialogs := [], submitted := false, busy := false }
  else { dialogs := [], submitted := true, busy := true }

/-- `IdeaWorkshopTab.save_report`, synchronous part: with an empty
conversation show the "Nothing to Save" information box and return;
otherwise enter busy state and start a worker. -/
def IdeaWorkshopTab.save_report_submit (conversation : List (String × String)) : SubmitOutcome :=
  if conversation = [] then
    { dialogs := [Dialog.information "Nothing to Save" "Start a conversation first."]
      submitted := false, busy := false }
  else { dialogs := [], submitted := true, busy := true }

/-- The system instruction of `IdeaWorkshopTab.save_report`. -/
def reportSystem : String :=
  "You are a writing workshop assistant. Create a complete idea report from the conversation. Include premise, characters, plot arc, worldbuilding, themes, and next steps."

/-- The prompt of `IdeaWorkshopTab.save_report`. -/
def reportPrompt (conversation : List (String × String)) : String :=
  "Conversation transcript:\n" ++ historyText conversation

/-- The unit of work handed to the worker by `IdeaWorkshopTab.save_report`. -/
def IdeaWorkshopTab.save_report_task (llm : LLMClient) (conversation : List (String × String)) : Except PyException LLMResult :=
  llm.generate (reportPrompt conversation) (some reportSystem)

/-- `IdeaWorkshopTab.save_report` end to end: the precondition check, the
worker running the task, and delivery to `_save_report_result` (which
writes the stripped result text to the idea-report file) or to
`_handle_error` (which shows a critical dialog and leaves the file alone).
Returns the idea-report file content and the dialogs shown. -/
def IdeaWorkshopTab.save_report_flow (llm : LLMClient) (conversation : List (String × String)) (ideaReportFile : Option String) : Option String × List Dialog :=
  if conversation = [] then
    (ideaReportFile, [Dialog.information "Nothing to Save" "Start a conversation first."])
  else
    dispatchEvents (LLMWorker.run (IdeaWorkshopTab.save_report_task llm conversation))
      (ideaReportFile, [])
      (fun r s => (some (pyStrip r.text), s.2))
      (fun m s => (s.1, s.2 ++ [Dialog.critical "Idea Workshop Error" m]))

/-- The system instruction of `StyleBuilderTab.generate_style`. -/
def styleSystem : String :=
  "You are a literary style analyst. Create a comprehensive style guide from the provided notes. Provide sections on voice, diction, pacing, structure, and examples of do/don\x27t guidance."

/-- The prompt of `StyleBuilderTab.generate_style`
(`author or 'Not specified'` — empty author selects the default). -/
def stylePrompt (author description : String) : String :=
  "Author inspiration: " ++ (if author = "" then "Not specified" else author)
    ++ "\nStyle notes: " ++ description

/-- `StyleBuilderTab.generate_style`, synchronous part: with an empty
stripped description show the "Missing Description" information box and
return; otherwise enter busy state and start a worker. -/
def StyleBuilderTab.generate_style_submit (descInput : String) : SubmitOutcome :=
  if pyStrip descInput = "" then
    { dialogs := [Dialog.information "Missing Description" "Please describe the desired style first."]
      submitted := false, busy := false }
  else { dialogs := [], submitted := true, busy := true }

/-- The unit of work handed to the worker by
`StyleBuilderTab.generate_style`. -/
def StyleBuilderTab.generate_style_task (llm : LLMClient) (authorInput descInput : String) : Except PyException LLMResult :=
  llm.generate (stylePrompt (pyStrip authorInput) (pyStrip descInput)) (some styleSystem)

/-- `StyleBuilderTab.generate_style` end to end: precondition check, the
worker running the task, and delivery to `_handle_style_result` (which
writes the stripped result text to the style-profile file) or to
`_handle_error`. Returns the style-profile file content and the dialogs
shown. -/
def StyleBuilderTab.generate_style_flow (llm : LLMClient) (authorInput descInput : String) (styleProfileFile : Option String) : Option String × List Dialog :=
  if pyStrip descInput = "" then
    (styleProfileFile, [Dialog.information "Missing Description" "Please describe the desired style first."])
  else
    dispatchEvents (LLMWorker.run (StyleBuilderTab.generate_style_task llm authorInput descInput))
      (styleProfileFile, [])
      (fun r s => (some (pyStrip r.text), s.2))
      (fun m s => (s.1, s.2 ++ [Dialog.critical "Style Profile Error" m]))

/-- Outcome of `FactLibraryTab.save_library`: the fact-library file after
the action, the dialogs shown, and the status-bar messages pushed. -/
structure FactLibrarySave where
  file : Option String
  dialogs : List Dialog
  status : List String
deriving DecidableEq, Repr

/-- `FactLibraryTab.save_library`: strip the editor text; if empty show
the "Nothing to Save" information box and write nothing; otherwise write
the stripped text to the fact-library file (full overwrite). -/
def FactLibraryTab.save_library (editor : String) (factLibraryFile : Option String) : FactLibrarySave :=
  let text := pyStrip editor
  if text = "" then
    { file := factLibraryFile
      dialogs := [Dialog.information "Nothing to Save" "Add some facts before saving."]
      status := [] }
  else
    { file := some text, dialogs := [], status := ["Fact library saved"] }

/-- `FactLibraryTab.load_library`: if the fact-library file exists, replace
the editor content with it; otherwise leave the editor unchanged. Returns
the editor content after the call. -/
def FactLibraryTab.load_library (factLibraryFile : Option String) (editor : String) : String :=
  match factLibraryFile with
  | some content => content
  | none => editor

/-- `FactCheckerTab.run_fact_check`, synchronous part: empty stripped input
shows the "Missing Text" information box; a missing fact-library file shows
the "Missing Fact Library" warning; otherwise busy and a worker starts. -/
def FactCheckerTab.run_fact_check_submit (input : String) (factLibraryFile : Option String) : SubmitOutcome :=
  if pyStrip input = "" then
    { dialogs := [Dialog.information "Missing Text" "Paste text to review first."]
      submitted := false, busy := false }
  else if factLibraryFile = none then
    { dialogs := [Dialog.warning "Missing Fact Library" "Save a fact library before running this check."]
      submitted := false, busy := false }
  else { dialogs := [], submitted := true, busy := true }

/-- `CheckersTab.run_style_check`, synchronous part. -/
def CheckersTab.run_style_check_submit (input : String) (styleProfileFile : Option String) : SubmitOutcome :=
  if pyStrip input = "" then
    { dialogs := [Dialog.information "Missing Text" "Paste text to review first."]
      submitted := false, busy := false }
  else if styleProfileFile = none then
    { dialogs := [Dialog.warning "Missing Style Profile" "Generate a style profile before running this check."]
      submitted := false, busy := false }
  else { dialogs := [], submitted := true, busy := true }

/-- `CheckersTab.run_consistency_check`, synchronous part. -/
def CheckersTab.run_consistency_check_submit (input : String) (ideaReportFile : Option String) : SubmitOutcome :=
  if pyStrip input = "" then
    { dialogs := [Dialog.information "Missing Text" "Paste text to review first."]
      submitted := false, busy := false }
  else if ideaReportFile = none then
    { dialogs := [Dialog.warning "Missing Workshop Report" "Save an idea workshop report before running this check."]
      submitted := false, busy := false }
  else { dialogs := [], submitted := true, busy := true }

/-- A backend whose plain and search calls both succeed with text `t`. -/
def okBackend (t : String) : Backend :=
  ⟨fun _ => Except.ok (some t), Except.ok (), fun _ => Except.ok (some t)⟩

/-- A backend whose plain call succeeds with text `t` but whose
search-augmented call raises `e`. -/
def searchFailBackend (t : String) (e : PyException) : Backend :=
  ⟨fun _ => Except.ok (some t), Except.ok (), fun _ => Except.error e⟩

/-- A client with a usable key and SDK over the given backend. -/
def liveClient (b : Backend) : LLMClient :=
  ⟨some "real-key", true, b⟩

/-- A backend whose plain and search calls both succeed with the text
"REPORT BODY". -/
def reportBackend : Backend :=
  okBackend "REPORT BODY"


/-- Claim C1: when the generation client is unavailable (no credential or
SDK not loaded), both `generate` and `generate_with_search` return the
fixed mock result with `is_mock = true`, independently of the prompt and
system-instruction arguments. -/
theorem generate_unavailable_fixed_mock (c : LLMClient) (prompt : String)
    (system : Option String) (h : c.is_available = false) :
    c.generate prompt system = Except.ok mock_result ∧
    c.generate_with_search prompt system = Except.ok mock_result ∧
    mock_result.is_mock = true := by
  unfold LLMClient.generate LLMClient.generate_with_search
  simp [h, mock_result]

/-- Witness for C1: a client lacking a key returns the mock result on both
paths for a concrete prompt and system instruction. -/
theorem generate_unavailable_fixed_mock_witness :
    (⟨none, true, okBackend "live"⟩ : LLMClient).generate "p" (some "s") = Except.ok mock_result ∧
    (⟨none, true, okBackend "live"⟩ : LLMClient).generate_with_search "p" (some "s") = Except.ok mock_result ∧
    mock_result.is_mock = true :=
  generate_unavailable_fixed_mock ⟨none, true, okBackend "live"⟩ "p" (some "s") (by decide)

/-- Claim C2: whenever the search-augmented path of `generate_with_search`
raises (constructing or invoking the search-enabled model), the call
returns exactly the result of `generate` on the identical arguments. -/
theorem generate_with_search_falls_back_on_raise (c : LLMClient)
    (prompt : String) (system : Option String)
    (h : searchPathRaises c prompt system = true) :
    c.generate_with_search prompt system = c.generate prompt system := by
  unfold searchPathRaises at h
  unfold LLMClient.generate_with_search
  cases hav : c.is_available with
  | false => rw [hav] at h; simp at h
  | true =>
    rw [hav] at h
    simp only [Bool.true_and] at h
    simp only [hav, Bool.not_true, Bool.false_eq_true, if_false]
    cases hc : c.backend.searchCtor with
    | error e => simp
    | ok u =>
      rw [hc] at h
      cases hs : c.backend.search (fullPrompt system prompt) with
      | error e => simp
      | ok t => rw [hs] at h; simp at h

/-- Witness for C2: with a live client whose search call raises, the
search-augmented call equals the plain call on the same arguments. -/
theorem generate_with_search_falls_back_on_raise_witness :
    searchPathRaises (liveClient (searchFailBackend "live" ⟨"quota"⟩)) "p" (some "s") = true ∧
    (liveClient (searchFailBackend "live" ⟨"quota"⟩)).generate_with_search "p" (some "s")
      = (liveClient (searchFailBackend "live" ⟨"quota"⟩)).generate "p" (some "s") :=
  ⟨by decide,
   generate_with_search_falls_back_on_raise
     (liveClient (searchFailBackend "live" ⟨"quota"⟩)) "p" (some "s") (by decide)⟩

/-- Claim C3: for every submitted unit of work, a returned value is
delivered to the success handler exactly once with no failure emission, a
raised error has its message delivered to the failure handler exactly once
with no success emission, and exactly one handler fires per task. -/
theorem worker_run_delivers_exactly_once (task : Except PyException LLMResult) :
    (∀ v, task = Except.ok v →
       LLMWorker.run task = [WorkerEvent.finished v] ∧
       (LLMWorker.run task).countP (fun ev => ev == WorkerEvent.finished v) = 1 ∧
       (LLMWorker.run task).countP
         (fun ev => match ev with | WorkerEvent.failed _ => true | _ => false) = 0) ∧
    (∀ e, task = Except.error e →
       LLMWorker.run task = [WorkerEvent.failed (pyStr e)] ∧
       (LLMWorker.run task).countP (fun ev => ev == WorkerEvent.failed (pyStr e)) = 1 ∧
       (LLMWorker.run task).countP
         (fun ev => match ev with | WorkerEvent.finished _ => true | _ => false) = 0) ∧
    (LLMWorker.run task).length = 1 := by
  refine ⟨?_, ?_, ?_⟩
  · intro v hv
    subst hv
    simp [LLMWorker.run, List.countP_cons, List.countP_nil]
  · intro e he
    subst he
    simp [LLMWorker.run, List.countP_cons, List.countP_nil]
  · cases task <;> simp [LLMWorker.run]

/-- Witness for C3: a task returning the mock result emits exactly one
`finished`, and a task raising "boom" emits exactly one `failed "boom"`. -/
theorem worker_run_delivers_exactly_once_witness :
    (LLMWorker.run (Except.ok mock_result) = [WorkerEvent.finished mock_result] ∧
     (LLMWorker.run (Except.ok mock_result)).countP
       (fun ev => ev == WorkerEvent.finished mock_result) = 1 ∧
     (LLMWorker.run (Except.ok mock_result)).countP
       (fun ev => match ev with | WorkerEvent.failed _ => true | _ => false) = 0) ∧
    (LLMWorker.run (Except.error ⟨"boom"⟩) = [WorkerEvent.failed (pyStr ⟨"boom"⟩)] ∧
     (LLMWorker.run (Except.error ⟨"boom"⟩)).countP
       (fun ev => ev == WorkerEvent.failed (pyStr ⟨"boom"⟩)) = 1 ∧
     (LLMWorker.run (Except.error ⟨"boom"⟩)).countP
       (fun ev => match ev with | WorkerEvent.finished _ => true | _ => false) = 0) :=
  ⟨(worker_run_delivers_exactly_once (Except.ok mock_result)).1 mock_result rfl,
   (worker_run_delivers_exactly_once (Except.error ⟨"boom"⟩)).2.1 ⟨"boom"⟩ rfl⟩

/-- Counterexample to claim C4: `load_api_key` has no exception handler, so
an I/O error raised while reading an existing credential file escapes to
the caller instead of being treated as an absent credential. -/
theorem load_api_key_io_error_escapes :
    load_api_key ⟨true, Except.error ⟨"PermissionError: denied"⟩⟩
      = Except.error ⟨"PermissionError: denied"⟩ ∧
    load_api_key ⟨true, Except.error ⟨"PermissionError: denied"⟩⟩ ≠ Except.ok none := by
  decide

/-- Claim C4 as amended: `load_api_key` returns `None` when the file does
not exist, when the content is empty after stripping, or when the stripped
content case-insensitively equals a placeholder token; nonexistence raises
nothing (it is checked before the read), but an I/O error raised while
reading an existing file propagates uncaught. -/
theorem load_api_key_absent_conditions (f : CredFile) :
    (f.on_disk = false → load_api_key f = Except.ok none) ∧
    (∀ content, f.readResult = Except.ok content → pyStrip content = "" →
       load_api_key f = Except.ok none) ∧
    (∀ content, f.readResult = Except.ok content →
       pyUpper (pyStrip content) ∈ placeholderTokens →
       load_api_key f = Except.ok none) ∧
    (∀ e, f.on_disk = true → f.readResult = Except.error e →
       load_api_key f = Except.error e) := by
  refine ⟨?_, ?_, ?_, ?_⟩
  · intro h
    simp [load_api_key, h]
  · intro content hc hs
    unfold load_api_key
    rw [hc]
    by_cases hd : f.on_disk
    · simp [hd, hs]
    · simp [hd]
  · intro content hc hp
    unfold load_api_key
    rw [hc]
    by_cases hd : f.on_disk
    · by_cases hs : pyStrip content = ""
      · simp [hd, hs]
      · simp [hd, hs, hp]
    · simp [hd]
  · intro e hd he
    simp [load_api_key, hd, he]

/-- Witness for the amended C4: a missing file, a whitespace-only file, a
lowercase placeholder file, and an unreadable file, each at a concrete
content. -/
theorem load_api_key_absent_conditions_witness :
    load_api_key ⟨false, Except.ok "irrelevant"⟩ = Except.ok none ∧
    load_api_key ⟨true, Except.ok "  \n"⟩ = Except.ok none ∧
    load_api_key ⟨true, Except.ok "mock_api_key\n"⟩ = Except.ok none ∧
    load_api_key ⟨true, Except.error ⟨"IOError"⟩⟩ = Except.error ⟨"IOError"⟩ :=
  ⟨(load_api_key_absent_conditions ⟨false, Except.ok "irrelevant"⟩).1 rfl,
   (load_api_key_absent_conditions ⟨true, Except.ok "  \n"⟩).2.1 "  \n" rfl (by decide),
   (load_api_key_absent_conditions ⟨true, Except.ok "mock_api_key\n"⟩).2.2.1
     "mock_api_key\n" rfl (by decide),
   (load_api_key_absent_conditions ⟨true, Except.error ⟨"IOError"⟩⟩).2.2.2 ⟨"IOError"⟩ rfl rfl⟩

/-- Counterexample to claim C5: saving editor content `" x"` (leading
space) and reloading yields `"x"`, not `" x"` — the save strips the
content before writing, so the round trip is not the identity. -/
theorem fact_library_roundtrip_not_identity :
    FactLibraryTab.load_library (FactLibraryTab.save_library " x" none).file "" = "x" ∧
    FactLibraryTab.load_library (FactLibraryTab.save_library " x" none).file "" ≠ " x" := by
  decide

/-- Claim C5 as amended: saving the fact library with editor content `C`
whose stripped form is non-empty and then reloading yields exactly
`pyStrip C`; the round trip is the identity exactly when `C` is already
stripped (and non-empty). -/
theorem fact_library_roundtrip_strips (C editor0 : String) (prior : Option String)
    (h : pyStrip C ≠ "") :
    FactLibraryTab.load_library (FactLibraryTab.save_library C prior).file editor0
      = pyStrip C := by
  simp [FactLibraryTab.save_library, FactLibraryTab.load_library, h]

/-- Witness for the amended C5: saving `"  fact one  "` and reloading
yields `"fact one"`. -/
theorem fact_library_roundtrip_strips_witness :
    pyStrip "  fact one  " ≠ "" ∧
    FactLibraryTab.load_library (FactLibraryTab.save_library "  fact one  " none).file ""
      = pyStrip "  fact one  " :=
  ⟨by decide, fact_library_roundtrip_strips "  fact one  " "" none (by decide)⟩

/-- Counterexample to claim C6: the idea workshop's send-message action on
empty input shows no dialog at all — it returns silently (no task, still
idle, but also no informational/warning box), contrary to the claim that
every precondition violation surfaces a dialog. -/
theorem send_message_empty_shows_no_dialog :
    pyStrip "" = "" ∧
    IdeaWorkshopTab.send_message_submit ""
      = { dialogs := [], submitted := false, busy := false } := by
  decide

/-- Claim C6 as amended: whenever a submit action's precondition is
violated (empty stripped input, or a required artifact file missing), no
task is submitted and the tab stays idle; every such action shows exactly
one informational/warning dialog, except the idea workshop's send-message
action on empty input, which silently returns without any dialog. -/
theorem submit_precondition_guards
    (msgInput descInput fcEmpty fcText scEmpty scText ccEmpty ccText : String)
    (conversation : List (String × String))
    (factFile styleFile ideaFile : Option String) :
    (pyStrip msgInput = "" →
       IdeaWorkshopTab.send_message_submit msgInput
         = { dialogs := [], submitted := false, busy := false }) ∧
    (conversation = [] →
       IdeaWorkshopTab.save_report_submit conversation
         = { dialogs := [Dialog.information "Nothing to Save" "Start a conversation first."]
             submitted := false, busy := false }) ∧
    (pyStrip descInput = "" →
       StyleBuilderTab.generate_style_submit descInput
         = { dialogs := [Dialog.information "Missing Description" "Please describe the desired style first."]
             submitted := false, busy := false }) ∧
    (pyStrip fcEmpty = "" →
       FactCheckerTab.run_fact_check_submit fcEmpty factFile
         = { dialogs := [Dialog.information "Missing Text" "Paste text to review first."]
             submitted := false, busy := false }) ∧
    (pyStrip fcText ≠ "" →
       FactCheckerTab.run_fact_check_submit fcText none
         = { dialogs := [Dialog.warning "Missing Fact Library" "Save a fact library before running this check."]
             submitted := false, busy := false }) ∧
    (pyStrip scEmpty = "" →
       CheckersTab.run_style_check_submit scEmpty styleFile
         = { dialogs := [Dialog.information "Missing Text" "Paste text to review first."]
             submitted := false, busy := false }) ∧
    (pyStrip scText ≠ "" →
       CheckersTab.run_style_check_submit scText none
         = { dialogs := [Dialog.warning "Missing Style Profile" "Generate a style profile before running this check."]
             submitted := false, busy := false }) ∧
    (pyStrip ccEmpty = "" →
       CheckersTab.run_consistency_check_submit ccEmpty ideaFile
         = { dialogs := [Dialog.information "Missing Text" "Paste text to review first."]
             submitted := false, busy := false }) ∧
    (pyStrip ccText ≠ "" →
       CheckersTab.run_consistency_check_submit ccText none
         = { dialogs := [Dialog.warning "Missing Workshop Report" "Save an idea workshop report before running this check."]
             submitted := false, busy := false }) := by
  refine ⟨?_, ?_, ?_, ?_, ?_, ?_, ?_, ?_, ?_⟩
  · intro h; simp [IdeaWorkshopTab.send_message_submit, h]
  · intro h; simp [IdeaWorkshopTab.save_report_submit, h]
  · intro h; simp [StyleBuilderTab.generate_style_submit, h]
  · intro h; simp [FactCheckerTab.run_fact_check_submit, h]
  · intro h; simp [FactCheckerTab.run_fact_check_submit, h]
  · intro h; simp [CheckersTab.run_style_check_submit, h]
  · intro h; simp [CheckersTab.run_style_check_submit, h]
  · intro h; simp [CheckersTab.run_consistency_check_submit, h]
  · intro h; simp [CheckersTab.run_consistency_check_submit, h]

/-- Witness for the amended C6: each precondition violation at a concrete
input — whitespace message, empty conversation, blank description, blank
check inputs, and non-blank check inputs with the required file missing. -/
theorem submit_precondition_guards_witness :
    IdeaWorkshopTab.send_message_submit "  "
      = { dialogs := [], submitted := false, busy := false } ∧
    IdeaWorkshopTab.save_report_submit []
      = { dialogs := [Dialog.information "Nothing to Save" "Start a conversation first."]
          submitted := false, busy := false } ∧
    StyleBuilderTab.generate_style_submit "\n"
      = { dialogs := [Dialog.information "Missing Description" "Please describe the desired style first."]
          submitted := false, busy := false } ∧
    FactCheckerTab.run_fact_check_submit "" (some "lib")
      = { dialogs := [Dialog.information "Missing Text" "Paste text to review first."]
          submitted := false, busy := false } ∧
    FactCheckerTab.run_fact_check_submit "claim" none
      = { dialogs := [Dialog.warning "Missing Fact Library" "Save a fact library before running this check."]
          submitted := false, busy := false } ∧
    CheckersTab.run_style_check_submit "" (some "profile")
      = { dialogs := [Dialog.information "Missing Text" "Paste text to review first."]
          submitted := false, busy := false } ∧
    CheckersTab.run_style_check_submit "text" none
      = { dialogs := [Dialog.warning "Missing Style Profile" "Generate a style profile before running this check."]
          submitted := false, busy := false } ∧
    CheckersTab.run_consistency_check_submit "" (some "report")
      = { dialogs := [Dialog.information "Missing Text" "Paste text to review first."]
          submitted := false, busy := false } ∧
    CheckersTab.run_consistency_check_submit "draft" none
      = { dialogs := [Dialog.warning "Missing Workshop Report" "Save an idea workshop report before running this check."]
          submitted := false, busy := false } := by
  have h := submit_precondition_guards "  " "\n" "" "claim" "" "text" "" "draft"
    [] (some "lib") (some "profile") (some "report")
  obtain ⟨h1, h2, h3, h4, h5, h6, h7, h8, h9⟩ := h
  exact ⟨h1 (by decide), h2 rfl, h3 (by decide), h4 (by decide), h5 (by decide),
         h6 (by decide), h7 (by decide), h8 (by decide), h9 (by decide)⟩

/-- Claim C7: whenever a save-producing action's unit of work completes
successfully with a result, the artifact file at the fixed path ends up
containing exactly the result text stripped of leading and trailing
whitespace (full overwrite), for both the idea-report save and the
style-profile save. -/
theorem save_actions_write_trimmed_result (llm : LLMClient)
    (conversation : List (String × String)) (ideaFile styleFile : Option String)
    (authorInput descInput : String) (r r2 : LLMResult)
    (hconv : conversation ≠ [])
    (htask : IdeaWorkshopTab.save_report_task llm conversation = Except.ok r)
    (hdesc : pyStrip descInput ≠ "")
    (htask2 : StyleBuilderTab.generate_style_task llm authorInput descInput = Except.ok r2) :
    IdeaWorkshopTab.save_report_flow llm conversation ideaFile
      = (some (pyStrip r.text), []) ∧
    StyleBuilderTab.generate_style_flow llm authorInput descInput styleFile
      = (some (pyStrip r2.text), []) := by
  constructor
  · unfold IdeaWorkshopTab.save_report_flow
    simp [hconv, htask, LLMWorker.run, dispatchEvents]
  · unfold StyleBuilderTab.generate_style_flow
    simp [hdesc, htask2, LLMWorker.run, dispatchEvents]

/-- Witness for C7 (the spec's scenario): with the conversation
`[("User", "A detective in Mars colony")]` and a live backend returning
"REPORT BODY", the idea-report file becomes exactly "REPORT BODY"; the
style flow over the same backend likewise writes "REPORT BODY". -/
theorem save_actions_write_trimmed_result_witness :
    IdeaWorkshopTab.save_report_flow (liveClient reportBackend)
      [("User", "A detective in Mars colony")] none
      = (some "REPORT BODY", []) ∧
    StyleBuilderTab.generate_style_flow (liveClient reportBackend)
      "" "terse, present tense" none
      = (some "REPORT BODY", []) := by
  have h := save_actions_write_trimmed_result (liveClient reportBackend)
    [("User", "A detective in Mars colony")] none none
    "" "terse, present tense" ⟨"REPORT BODY", false⟩ ⟨"REPORT BODY", false⟩
    (by decide) (by decide) (by decide) (by decide)
  exact ⟨by rw [h.1]; decide, by rw [h.2]; decide⟩

/-- Claim C8: when the credential file contains exactly "MOCK",
`load_api_key` yields an absent key, so the style builder's generation on
a non-empty description produces the mock result (`is_mock = true`) and
the style-profile file is overwritten with the stripped mock text —
whatever the backend and SDK state. -/
theorem mock_key_style_flow_writes_mock (genaiLoaded : Bool) (backend : Backend)
    (key : Option String) (authorInput descInput : String) (styleFile : Option String)
    (hkey : load_api_key ⟨true, Except.ok "MOCK"⟩ = Except.ok key)
    (hdesc : pyStrip descInput ≠ "") :
    StyleBuilderTab.generate_style_task ⟨key, genaiLoaded, backend⟩ authorInput descInput
      = Except.ok mock_result ∧
    mock_result.is_mock = true ∧
    StyleBuilderTab.generate_style_flow ⟨key, genaiLoaded, backend⟩ authorInput descInput styleFile
      = (some (pyStrip mock_result.text), []) := by
  have hk : key = none := by
    have he : load_api_key ⟨true, Except.ok "MOCK"⟩ = Except.ok none := by decide
    rw [he] at hkey
    exact (Except.ok.injEq _ _).mp hkey.symm
  subst hk
  have hunavail : (⟨none, genaiLoaded, backend⟩ : LLMClient).is_available = false := by
    simp [LLMClient.is_available, pyBool]
  have htask : StyleBuilderTab.generate_style_task ⟨none, genaiLoaded, backend⟩ authorInput descInput
      = Except.ok mock_result := by
    unfold StyleBuilderTab.generate_style_task LLMClient.generate
    simp [hunavail]
  refine ⟨htask, rfl, ?_⟩
  unfold StyleBuilderTab.generate_style_flow
  simp [hdesc, htask, LLMWorker.run, dispatchEvents]

/-- Witness for C8: the spec's scenario with description
"terse, present tense", an arbitrary live-looking backend and the SDK
loaded; the credential "MOCK" still forces the mock result and the mock
text on disk. -/
theorem mock_key_style_flow_writes_mock_witness :
    StyleBuilderTab.generate_style_task ⟨none, true, okBackend "live"⟩ "" "terse, present tense"
      = Except.ok mock_result ∧
    mock_result.is_mock = true ∧
    StyleBuilderTab.generate_style_flow ⟨none, true, okBackend "live"⟩ "" "terse, present tense" (some "old profile")
      = (some (pyStrip mock_result.text), []) :=
  mock_key_style_flow_writes_mock true (okBackend "live") none "" "terse, present tense"
    (some "old profile") (by decide) (by decide)

/-- Counterexample to claim C9: a credential file holding "ABC\nDEF" (two
lines, no placeholder) yields the credential "ABC\nDEF" — the whole file
stripped — not the trimmed first line "ABC": later lines are kept. -/
theorem credential_keeps_later_lines :
    load_api_key ⟨true, Except.ok "ABC\nDEF"⟩ = Except.ok (some "ABC\nDEF") ∧
    pyStrip (firstLine "ABC\nDEF") = "ABC" ∧
    load_api_key ⟨true, Except.ok "ABC\nDEF"⟩
      ≠ Except.ok (some (pyStrip (firstLine "ABC\nDEF"))) := by
  decide

/-- Claim C9 as amended: for a credential file whose content is neither
empty after stripping nor a placeholder, `load_api_key` returns the entire
file content stripped of leading and trailing whitespace (not merely the
first line). -/
theorem load_api_key_returns_stripped_content (content : String)
    (h1 : pyStrip content ≠ "")
    (h2 : pyUpper (pyStrip content) ∉ placeholderTokens) :
    load_api_key ⟨true, Except.ok content⟩ = Except.ok (some (pyStrip content)) := by
  simp [load_api_key, h1, h2]

/-- Witness for the amended C9: a two-line credential file returns both
lines, stripped. -/
theorem load_api_key_returns_stripped_content_witness :
    load_api_key ⟨true, Except.ok " sk-123\nsecond line "⟩
      = Except.ok (some (pyStrip " sk-123\nsecond line ")) :=
  load_api_key_returns_stripped_content " sk-123\nsecond line " (by decide) (by decide)

/-- Claim C10: invoking the fact library's save with editor content that
strips to empty leaves the fact-library file exactly as it was (written
or absent), shows only the "Nothing to Save" information dialog, and
pushes no status message. -/
theorem save_library_empty_no_write (editor : String) (factFile : Option String)
    (h : pyStrip editor = "") :
    FactLibraryTab.save_library editor factFile
      = { file := factFile
          dialogs := [Dialog.information "Nothing to Save" "Add some facts before saving."]
          status := [] } := by
  simp [FactLibraryTab.save_library, h]

/-- Witness for C10: a whitespace-only editor over an existing file leaves
the file's prior content in place and shows the information dialog. -/
theorem save_library_empty_no_write_witness :
    FactLibraryTab.save_library " \n\t" (some "old facts")
      = { file := some "old facts"
          dialogs := [Dialog.information "Nothing to Save" "Add some facts before saving."]
          status := [] } :=
  save_library_empty_no_write " \n\t" (some "old facts") (by decide)
